import Mathlib

/-!
Verification development for the FD2W forecast-distribution pipeline
(`src/app.py`).  The Python code is shallowly embedded: spreadsheet cell
values become the inductive type `Cell`, pandas DataFrame stages of
`load_and_process_data` become list-processing functions, and the
Nominatim geocoding loop of `geocode_locations` becomes a pure function
parameterised by a lookup oracle.  Numbers are modelled as rationals.
-/

namespace FD2W

/-- Model of an untyped spreadsheet cell as held in a pandas DataFrame:
a string, a number, or a missing value (NaN / blank / None). -/
inductive Cell where
  | s : String → Cell
  | n : ℚ → Cell
  | na : Cell
  deriving DecidableEq

/-- Whitespace test used for the trimming Python performs with
`str.strip()`. -/
def wsChar (c : Char) : Bool :=
  c == ' ' || c == '\t' || c == '\n' || c == '\r'

/-- Trim whitespace from both ends of a character list. -/
def trimChars (cs : List Char) : List Char :=
  ((cs.dropWhile wsChar).reverse.dropWhile wsChar).reverse

/-- String-level trimming, the embedding of Python's `str.strip()`. -/
def strTrim (s : String) : String := String.mk (trimChars s.toList)

/-- Whether the first list is a prefix of the second. -/
def listPrefixOf : List Char → List Char → Bool
  | [], _ => true
  | _ :: _, [] => false
  | a :: xs, b :: ys => a == b && listPrefixOf xs ys

/-- Whether `needle` occurs as a contiguous sublist. -/
def subOccurs (needle : List Char) : List Char → Bool
  | [] => needle.isEmpty
  | c :: rest => listPrefixOf needle (c :: rest) || subOccurs needle rest

/-- Embedding of the Python substring test `needle in hay`. -/
def containsSub (hay needle : String) : Bool :=
  subOccurs needle.toList hay.toList

/-- Embedding of Python's `str.startswith`. -/
def strStartsWith (s p : String) : Bool := listPrefixOf p.toList s.toList

/-- ASCII lower-casing of one character. -/
def lowerChar (c : Char) : Char :=
  if 'A' ≤ c ∧ c ≤ 'Z' then Char.ofNat (c.toNat + 32) else c

/-- Embedding of Python's `str.lower()` (ASCII fragment). -/
def strToLower (s : String) : String := String.mk (s.toList.map lowerChar)

/-- Value of a digit string, `none` when a non-digit occurs.  The empty
list is mapped to `some 0`; callers check nonemptiness. -/
def digitsVal (cs : List Char) : Option ℕ :=
  cs.foldl
    (fun acc c =>
      match acc with
      | none => none
      | some m => if c.isDigit then some (10 * m + (c.toNat - 48)) else none)
    (some 0)

/-- Split a numeral body at the first decimal point, keeping the
remainder (which must itself be digit-only to parse). -/
def breakDot : List Char → List Char × Option (List Char)
  | [] => ([], none)
  | c :: rest =>
    if c == '.' then ([], some rest)
    else
      let r := breakDot rest
      (c :: r.1, r.2)

/-- Parse an unsigned decimal numeral, optionally with a fractional
part, as Python float conversion does for the bodies accepted by
`pd.to_numeric`. -/
def parseUnsigned (cs : List Char) : Option ℚ :=
  match breakDot cs with
  | (ip, none) =>
    if ip.isEmpty then none
    else (digitsVal ip).map (fun m => (m : ℚ))
  | (ip, some fp) =>
    if ip.isEmpty && fp.isEmpty then none
    else
      match digitsVal ip, digitsVal fp with
      | some a, some b => some ((a : ℚ) + (b : ℚ) / ((10 : ℚ) ^ fp.length))
      | _, _ => none

/-- Numeric parse of a string cell, mirroring `pd.to_numeric` on str
input: surrounding whitespace is tolerated, an optional sign precedes a
decimal numeral, anything else yields a missing value. -/
def parseRat (str : String) : Option ℚ :=
  match trimChars str.toList with
  | '-' :: rest => (parseUnsigned rest).map (fun q => -q)
  | '+' :: rest => parseUnsigned rest
  | cs => parseUnsigned cs

/-- Embedding of `pd.to_numeric(df_long['Volume'], errors='coerce')` on a
single cell: numbers pass through, strings are parsed, everything
unparseable or missing coerces to `none` (NaN), never an error. -/
def to_numeric : Cell → Option ℚ
  | Cell.n q => some q
  | Cell.s str => parseRat str
  | Cell.na => none

/-- One resolved data column of the pivot: the (forward-filled) level-0
forecast label and the level-1 location label. -/
structure ColLabel where
  forecastType : String
  location : String
  deriving DecidableEq

/-- One data row of the pivot after `set_index`: the market name from the
first column and the data-region cells. -/
structure DataRow where
  market : String
  cells : List Cell
  deriving DecidableEq

/-- A long-format record as produced by `df_pivot.stack(...)`, its value
still an untyped cell. -/
structure LongRaw where
  market : String
  forecastType : String
  location : String
  value : Cell
  deriving DecidableEq

/-- A long-format record after the `pd.to_numeric` conversion of the
Volume column; `volume = none` models NaN. -/
structure LongNum where
  market : String
  forecastType : String
  location : String
  volume : Option ℚ
  deriving DecidableEq

/-- A record that survived the Volume dropna/positivity filters and the
role mapping (the spec's ClassifiedRecord). -/
structure ClassRec where
  market : String
  forecastType : String
  location : String
  volume : ℚ
  whRole : String
  deriving DecidableEq

/-- One output row of the final groupby (the spec's AggregatedRow). -/
structure AggRow where
  market : String
  whRole : String
  location : String
  volume : ℚ
  deriving DecidableEq

/-- Stack one market row against the resolved column labels: one record
per column whose cell is present; missing (NaN) cells are dropped, as
`DataFrame.stack` does with its default `dropna` behaviour. -/
def stackRow (m : String) (labels : List ColLabel) (cells : List Cell) :
    List LongRaw :=
  (labels.zip cells).filterMap
    (fun lc =>
      match lc.2 with
      | Cell.na => none
      | c => some ⟨m, lc.1.forecastType, lc.1.location, c⟩)

/-- Embedding of `df_pivot.stack(level=['ForecastType','Location'])` over
the whole data region. -/
def reshape (labels : List ColLabel) (rows : List DataRow) : List LongRaw :=
  rows.flatMap (fun r => stackRow r.market labels r.cells)

/-- Embedding of the Volume conversion applied column-wise:
`df_long['Volume'] = pd.to_numeric(df_long['Volume'], errors='coerce')`. -/
def to_numericStage (rows : List LongRaw) : List LongNum :=
  rows.map (fun r => ⟨r.market, r.forecastType, r.location, to_numeric r.value⟩)

/-- Embedding of `df_long.dropna(subset=['Volume'])`. -/
def dropnaVolume (rows : List LongNum) : List LongNum :=
  rows.filter (fun r => r.volume.isSome)

/-- Embedding of `df_long = df_long[df_long['Volume'] > 0]`. -/
def filterPositive (rows : List LongNum) : List LongNum :=
  rows.filter
    (fun r =>
      match r.volume with
      | some q => decide (0 < q)
      | none => false)

/-- The `role_mapping` dictionary of `load_and_process_data`, verbatim. -/
def role_mapping : List (String × String) :=
  [("Forecast at LDC", "LDCs"),
   ("Forecast at LDC (area split)", "LDCs"),
   ("Forecast at RDC", "RDCs"),
   ("Forecast at Factory Warehouse", "FWs")]

/-- Embedding of `df_long['ForecastType'].map(role_mapping)` on one
label: Python dict lookup, `none` models the NaN produced for a key that
is absent from the dict. -/
def mapRole (ft : String) : Option String :=
  (role_mapping.find? (fun p => p.1 == ft)).map (fun p => p.2)

/-- The role the pipeline effectively assigns to a label, with the NaN
case (subsequently dropped by `dropna(subset=['Wh_Role'])`) rendered as
the spec's `Unknown`. -/
def codeRole (ft : String) : String := (mapRole ft).getD "Unknown"

/-- Embedding of the role-map column assignment followed by
`df_long.dropna(subset=['Wh_Role'])`: records whose ForecastType is not a
key of `role_mapping` are dropped, the rest carry their mapped role. -/
def dropUnmapped (rows : List LongNum) : List ClassRec :=
  rows.filterMap
    (fun r =>
      match r.volume, mapRole r.forecastType with
      | some q, some role => some ⟨r.market, r.forecastType, r.location, q, role⟩
      | _, _ => none)

/-- Grouping key of the final groupby: `['Market', 'Wh_Role', 'Location']`. -/
def recKey (r : ClassRec) : String × String × String :=
  (r.market, r.whRole, r.location)

/-- Key of an aggregated output row. -/
def aggKey (a : AggRow) : String × String × String :=
  (a.market, a.whRole, a.location)

/-- Embedding of
`df_long.groupby(['Market','Wh_Role','Location'])['Volume'].sum()`:
one output row per distinct key, carrying the sum of the group's
volumes.  (pandas emits groups in sorted key order; the spec declares
row order not significant, and this embedding does not reproduce it.) -/
def aggregate (rows : List ClassRec) : List AggRow :=
  ((rows.map recKey).dedup).map
    (fun k =>
      ⟨k.1, k.2.1, k.2.2,
       ((rows.filter (fun r => recKey r = k)).map (fun r => r.volume)).sum⟩)

/-- The post-reshape volume pipeline of `load_and_process_data`:
numeric coercion, NaN drop, positivity filter, role mapping with drop of
unmapped rows, and the final groupby-sum. -/
def processLong (rows : List LongRaw) : List AggRow :=
  aggregate (dropUnmapped (filterPositive (dropnaVolume (to_numericStage rows))))

/-! ### Header resolution

`load_and_process_data` reads the pivot with
`pd.read_excel(file_source, skiprows=8, header=[0,1])`: it always skips
exactly the first 8 raw rows, then consumes two header rows; data rows
follow.  There is no scanning for a header row, and the whole body is
wrapped in a `try`/`except` whose handler shows the generic message
`"Error processing data: ..."`. -/

/-- The literal `skiprows=8` argument of the `pd.read_excel` call. -/
def skiprows : ℕ := 8

/-- The raw grid split as `pd.read_excel(..., skiprows=8, header=[0,1])`
produces it: two header rows followed by the data region. -/
structure PivotRead where
  header0 : List Cell
  header1 : List Cell
  data : List (List Cell)
  deriving DecidableEq

/-- Embedding of the `pd.read_excel(file_source, skiprows=8,
header=[0,1])` call on a raw cell grid; `none` models the exception the
call raises when the sheet is too short to supply both header rows. -/
def readPivot (grid : List (List Cell)) : Option PivotRead :=
  match grid.drop skiprows with
  | h0 :: h1 :: rest => some ⟨h0, h1, rest⟩
  | _ => none

/-- Raw-grid row index at which the data region begins, as fixed by the
`skiprows=8, header=[0,1]` read: always 8 skipped rows plus 2 header
rows, independent of the grid's contents. -/
def dataStartRow (_grid : List (List Cell)) : ℕ := skiprows + 2

/-- The pivot load with the surrounding `try`/`except` of
`load_and_process_data`: any failure surfaces as the generic
`st.error(f"Error processing data: ...")` report. -/
def load_pivot (grid : List (List Cell)) : Except String PivotRead :=
  match readPivot grid with
  | some p => Except.ok p
  | none => Except.error "Error processing data"

/-! ### Forward-fill of the level-0 header

pandas names a blank (merged) level-0 header cell `"Unnamed: <j>_level_0"`;
the code replaces labels matching `^Unnamed:.*` by `pd.NA` and
forward-fills: `level0.replace(r'^Unnamed:.*', pd.NA, regex=True).ffill()`. -/

/-- Whether a pandas column label is an `Unnamed:` placeholder, the
embedding of the regex test `^Unnamed:.*`. -/
def isUnnamed (s : String) : Bool := strStartsWith s "Unnamed:"

/-- Embedding of `level0.replace(r'^Unnamed:.*', pd.NA, regex=True)`:
placeholder labels become missing. -/
def replaceUnnamed (l : List String) : List (Option String) :=
  l.map (fun s => if isUnnamed s then none else some s)

/-- Embedding of `Series.ffill()`: each missing entry takes the last
non-missing value seen so far (`last`, initially missing). -/
def ffill (last : Option String) : List (Option String) → List (Option String)
  | [] => []
  | none :: rest => last :: ffill last rest
  | some s :: rest => some s :: ffill (some s) rest

/-- The level-0 label fix of `load_and_process_data`: replace `Unnamed:`
placeholders by missing values, then forward-fill. -/
def level0_fix (l : List String) : List (Option String) :=
  ffill none (replaceUnnamed l)

/-! ### Geocoding

`geocode_locations` iterates over the (optionally capped) location
table; for each row it builds a primary query from street, city and
country, falls back to city + country on an empty result, and maps any
exception to null coordinates.  The external Nominatim service is
modelled as a lookup oracle from query strings to responses. -/

/-- Response of one Nominatim lookup: `fail` models any transport
failure, timeout or malformed response (everything the `except` branch
catches); `ok rs` models a JSON result array whose entries carry
numeric-parseable coordinates. -/
inductive GeoResp where
  | fail : GeoResp
  | ok : List (ℚ × ℚ) → GeoResp
  deriving DecidableEq

/-- One row of the location table with the address fields
`geocode_locations` reads. -/
structure LocEntry where
  location : String
  street : String
  city : String
  country : String
  deriving DecidableEq

/-- A location row after geocoding, with its (nullable) coordinates. -/
structure GeoEntry where
  location : String
  street : String
  city : String
  country : String
  lat : Option ℚ
  lon : Option ℚ
  deriving DecidableEq

/-- The primary query string `f"{street} {city} {country}".strip()`. -/
def primaryQuery (street city country : String) : String :=
  strTrim (street ++ " " ++ city ++ " " ++ country)

/-- The fallback query string `f"{city} {country}".strip()`. -/
def fallbackQuery (city country : String) : String :=
  strTrim (city ++ " " ++ country)

/-- The per-row body of the geocoding loop: primary lookup, fallback to
city + country on an empty result, and `(none, none)` on a failure or an
empty fallback result. -/
def geocode_one (lookup : String → GeoResp) (street city country : String) :
    Option ℚ × Option ℚ :=
  match lookup (primaryQuery street city country) with
  | GeoResp.fail => (none, none)
  | GeoResp.ok (r :: _) => (some r.1, some r.2)
  | GeoResp.ok [] =>
    match lookup (fallbackQuery city country) with
    | GeoResp.fail => (none, none)
    | GeoResp.ok (s :: _) => (some s.1, some s.2)
    | GeoResp.ok [] => (none, none)

/-- Geocode one table row, attaching the resulting coordinate columns. -/
def geocodeEntry (lookup : String → GeoResp) (e : LocEntry) : GeoEntry :=
  let p := geocode_one lookup e.street e.city e.country
  ⟨e.location, e.street, e.city, e.country, p.1, p.2⟩

/-- Python truthiness of the `max_locations` argument (an int or
`None`): `if max_locations:` is taken only for a non-`None`, non-zero
value.  The app passes the slider value, a natural number. -/
def truthy : Option ℕ → Bool
  | none => false
  | some cap => cap != 0

/-- Embedding of `if max_locations: df_loc = df_loc.head(max_locations)`. -/
def applyCap (cap : Option ℕ) (rows : List LocEntry) : List LocEntry :=
  if truthy cap then rows.take (cap.getD 0) else rows

/-- Embedding of `geocode_locations(df_loc, max_locations)`: the table
is truncated when the cap is truthy, then every remaining row is
geocoded and the coordinate columns are attached. -/
def geocode_locations (lookup : String → GeoResp) (cap : Option ℕ)
    (rows : List LocEntry) : List GeoEntry :=
  (applyCap cap rows).map (geocodeEntry lookup)

/-! ### Definitions taken from the spec's words

The following definitions do not embed code of `src/app.py`; they
formalise the specification text itself so that the code's behaviour can
be compared against it (refinement checks and counterexamples). -/

/-- Modelled from the spec: the RoleClassifier's case-insensitive
substring rules, first match winning — contains "ldc" maps to LDCs, else
"rdc" to RDCs, else "factory" or "fw" to FWs, else Unknown. -/
def specClassify (label : String) : String :=
  let l := strToLower label
  if containsSub l "ldc" then "LDCs"
  else if containsSub l "rdc" then "RDCs"
  else if containsSub l "factory" || containsSub l "fw" then "FWs"
  else "Unknown"

/-- Text content of a cell, for the spec's row-concatenation test. -/
def cellText : Cell → String
  | Cell.s str => str
  | _ => ""

/-- Concatenated text of a raw grid row. -/
def rowText (row : List Cell) : String := String.join (row.map cellText)

/-- Modelled from the spec: the HeaderResolver's top-to-bottom scan for
the first row whose concatenated text contains a forecast keyword
(case-insensitively). -/
def firstKeywordRow (grid : List (List Cell)) : Option ℕ :=
  grid.findIdx? (fun row => containsSub (strToLower (rowText row)) "forecast")

/-- Helper for the spec-side reading of forward-fill: the last element
of a list, falling back to a default when the list is empty. -/
def lastD (o : Option String) : List String → Option String
  | [] => o
  | a :: rest => lastD (some a) rest

/-- Modelled from the spec: every blank (placeholder) label inherits the
most recent non-blank label to its left within the same row — position
`i` resolves to the last non-placeholder label occurring at or before
`i`, missing when there is none. -/
def spec_resolve (l : List String) : List (Option String) :=
  (List.range l.length).map
    (fun i => ((l.take (i + 1)).filter (fun s => !(isUnnamed s))).getLast?)

/-! ### Concrete inputs used by witnesses and counterexamples -/

/-- Whether a cell is present (not NaN); the cells `DataFrame.stack`
keeps. -/
def nonNA : Cell → Bool
  | Cell.na => false
  | _ => true

/-- A lookup oracle on which every request fails (network down). -/
def lookupFail : String → GeoResp := fun _ => GeoResp.fail

/-- A lookup oracle that answers only the city + country fallback query
`"City Country"`, with one result, and returns an empty result array for
every other query. -/
def lookupFB : String → GeoResp :=
  fun q => if q = "City Country" then GeoResp.ok [(25, 55)] else GeoResp.ok []

/-- A first location-table row. -/
def e1 : LocEntry := ⟨"AE01", "S1", "C1", "K1"⟩

/-- A second location-table row. -/
def e2 : LocEntry := ⟨"BE02", "S2", "C2", "K2"⟩

/-- A one-row raw grid whose single row contains a forecast keyword. -/
def gSmall : List (List Cell) := [[Cell.s "Forecast overview"]]

/-- An 11-row raw grid: 8 preamble rows, two header rows, one data row. -/
def g10 : List (List Cell) :=
  [[], [], [], [], [], [], [], [],
   [Cell.s "H0"], [Cell.s "Market"], [Cell.s "FR"]]

/-! ## Helper lemmas -/

/-- Length of stacking one row: one record per present (non-NaN) cell,
when the row is as wide as the label list. -/
theorem stackRow_length (m : String) (labels : List ColLabel) (cells : List Cell)
    (h : cells.length = labels.length) :
    (stackRow m labels cells).length = cells.countP nonNA := by
  induction labels generalizing cells with
  | nil =>
    cases cells with
    | nil => simp [stackRow]
    | cons c cs => simp at h
  | cons a lt ih =>
    cases cells with
    | nil => simp at h
    | cons c cs =>
      have h2 : cs.length = lt.length := by simpa using h
      cases c with
      | na => simpa [stackRow, List.countP_cons, nonNA] using ih cs h2
      | s str => simpa [stackRow, List.countP_cons, nonNA] using ih cs h2
      | n q => simpa [stackRow, List.countP_cons, nonNA] using ih cs h2

/-- Summing a constant over a list of rows. -/
theorem sum_map_constD (L : List DataRow) (k : ℕ) :
    (L.map (fun _ => k)).sum = L.length * k := by
  induction L with
  | nil => simp
  | cons a t ih => simp [ih, Nat.succ_mul, Nat.add_comm]

/-- `lastD` is the last element of the list when there is one, and the
default otherwise. -/
theorem lastD_eq (l : List String) (o : Option String) :
    lastD o l = match l.getLast? with | some x => some x | none => o := by
  induction l generalizing o with
  | nil => rfl
  | cons a t ih =>
    cases t with
    | nil => simp [lastD, ih]
    | cons b t2 =>
      rw [lastD, ih]
      have hns : (b :: t2).getLast?.isSome := by
        rw [List.getLast?_isSome]
        simp
      obtain ⟨x, hx⟩ := Option.isSome_iff_exists.mp hns
      rw [List.getLast?_cons_cons, hx]

/-- `lastD` with a missing default is exactly `getLast?`. -/
theorem lastD_none (l : List String) : lastD none l = l.getLast? := by
  rw [lastD_eq]
  cases l.getLast? <;> rfl

/-- Characterisation of the forward fill: position `i` of the filled
sequence holds the last non-placeholder label at or before `i`, falling
back to the accumulator `last` when there is none. -/
theorem ffill_resolve (l : List String) (last : Option String) :
    ffill last (replaceUnnamed l) =
      (List.range l.length).map
        (fun i => lastD last ((l.take (i + 1)).filter (fun s => !(isUnnamed s)))) := by
  induction l generalizing last with
  | nil => simp [replaceUnnamed, ffill]
  | cons a t ih =>
    rw [List.length_cons, List.range_succ_eq_map, List.map_cons, List.map_map]
    by_cases ha : isUnnamed a
    · have hL : ffill last (replaceUnnamed (a :: t)) =
          last :: ffill last (replaceUnnamed t) := by
        simp [replaceUnnamed, ha, ffill]
      rw [hL, ih]
      congr 1
      · simp [ha, lastD]
      · apply List.map_congr_left
        intro i _
        simp [Function.comp, List.take_succ_cons, List.filter_cons, ha]
    · have hL : ffill last (replaceUnnamed (a :: t)) =
          some a :: ffill (some a) (replaceUnnamed t) := by
        simp [replaceUnnamed, ha, ffill]
      rw [hL, ih]
      congr 1
      · simp [ha, lastD]
      · apply List.map_congr_left
        intro i _
        simp [Function.comp, List.take_succ_cons, List.filter_cons, ha, lastD]

/-- The keys of the aggregated rows are the deduplicated keys of the
input records. -/
theorem aggregate_map_key (rows : List ClassRec) :
    (aggregate rows).map aggKey = (rows.map recKey).dedup := by
  rw [aggregate, List.map_map]
  exact List.map_id _

/-! ## Claim C1 — role classification -/

/-- Claim C1 counterexample: the claim says classification is by
case-insensitive substring rules, under which "Factory Warehouse Plan"
maps to FWs; the code's exact-match dictionary maps it to NaN (Unknown),
so it disagrees with the claimed classifier at this label. -/
theorem claim1_counterexample :
    codeRole "Factory Warehouse Plan" = "Unknown"
  ∧ codeRole "Factory Warehouse Plan" ≠ specClassify "Factory Warehouse Plan"
  ∧ specClassify "Factory Warehouse Plan" = "FWs" :=
  ⟨by decide, by decide, by decide⟩

/-- Claim C1 (amended): the RoleClassifier assigns roles by exact match
of the whole label against the four `role_mapping` keys — the two LDC
labels map to LDCs, "Forecast at RDC" to RDCs, "Forecast at Factory
Warehouse" to FWs and every other label (including "Budget Notes" and
"Factory Warehouse Plan") to Unknown; the assignment is a function of
the label alone, never of Volume or Location. -/
theorem claim1_amended :
    (∀ label : String,
       codeRole label =
         if label = "Forecast at LDC" ∨ label = "Forecast at LDC (area split)" then "LDCs"
         else if label = "Forecast at RDC" then "RDCs"
         else if label = "Forecast at Factory Warehouse" then "FWs"
         else "Unknown")
  ∧ codeRole "Budget Notes" = "Unknown" := by
  constructor
  · intro label
    have k : ∀ a b : String, (a == b) = decide (b = a) := by
      intro a b
      by_cases hh : b = a
      · subst hh
        simp
      · have hf : (a == b) = false := beq_eq_false_iff_ne.mpr (fun e => hh e.symm)
        simp [hf, hh]
    simp only [codeRole, mapRole, role_mapping, List.find?, k]
    by_cases h1 : label = "Forecast at LDC" <;>
      by_cases h2 : label = "Forecast at LDC (area split)" <;>
        by_cases h3 : label = "Forecast at RDC" <;>
          by_cases h4 : label = "Forecast at Factory Warehouse" <;>
            simp_all
  · decide

/-! ## Claim C2 — Market filtering -/

/-- Claim C2 counterexample: the claim says a Market containing "Total"
never appears in the aggregated rows; the pipeline applies no Market
filter, so a record with Market "EMEA Total", positive Volume and a
mapped ForecastType does reach the output. -/
theorem claim2_counterexample :
    "EMEA Total" ∈
      (processLong [⟨"EMEA Total", "Forecast at RDC", "L1", Cell.n 5⟩]).map
        AggRow.market := by decide

/-- Claim C2 (amended): the cleaning stage never inspects Market — any
record with positive numeric Volume and a ForecastType mapped by
`role_mapping` flows through to an aggregated row carrying its Market
verbatim, whatever that Market is (empty, "nan", or containing
"Total"). -/
theorem claim2_amended (m ft loc : String) (q : ℚ) (role : String)
    (hq : 0 < q) (hrole : mapRole ft = some role) :
    processLong [⟨m, ft, loc, Cell.n q⟩] = [⟨m, role, loc, q⟩] := by
  simp [processLong, to_numericStage, dropnaVolume, filterPositive, to_numeric,
        dropUnmapped, hrole, aggregate, recKey, hq]

/-- Claim C2 witness: the amended theorem at the "EMEA Total" input. -/
theorem claim2_witness :
    processLong [⟨"EMEA Total", "Forecast at RDC", "L1", Cell.n 5⟩] =
      [⟨"EMEA Total", "RDCs", "L1", 5⟩] :=
  claim2_amended "EMEA Total" "Forecast at RDC" "L1" 5 "RDCs" (by decide) (by decide)

/-! ## Claim C3 — volume coercion -/

/-- Claim C3 counterexample: the claim says the blank cell " " reshapes
to Volume 0; the code coerces it to NaN (`errors='coerce'`) and then
`dropna(subset=['Volume'])` removes the record entirely. -/
theorem claim3_counterexample :
    to_numeric (Cell.s " ") ≠ some 0
  ∧ dropnaVolume (to_numericStage [⟨"M", "F", "L", Cell.s " "⟩]) = [] :=
  ⟨by decide, by decide⟩

/-- Claim C3 (amended): the volume conversion is total and never fails —
numeric inputs parse to their numeric value ("12" to 12, the number 12.0
to 12.0) while non-numeric or blank inputs (" ", "-", None) coerce to
missing and their records are dropped by the NaN filter, not kept with
Volume 0; the NaN filter keeps exactly the records whose cell value
parses. -/
theorem claim3_amended :
    to_numeric (Cell.s "12") = some 12
  ∧ to_numeric (Cell.n 12) = some 12
  ∧ to_numeric (Cell.s " ") = none
  ∧ to_numeric (Cell.s "-") = none
  ∧ to_numeric Cell.na = none
  ∧ ∀ rows : List LongRaw,
      (dropnaVolume (to_numericStage rows)).length =
        rows.countP (fun r => (to_numeric r.value).isSome) := by
  refine ⟨by decide, by decide, by decide, by decide, by decide, ?_⟩
  intro rows
  simp [dropnaVolume, to_numericStage, List.filter_map, List.countP_eq_length_filter,
        Function.comp]
  rfl

/-! ## Claim C4 — reshape record count -/

/-- Claim C4 counterexample: the claim says a 1-row, 1-data-column
region always yields exactly 1 record, including blank cells; the stack
drops the NaN cell, yielding 0 records. -/
theorem claim4_counterexample :
    reshape [⟨"Forecast at LDC", "Loc1"⟩] [⟨"FR", [Cell.na]⟩] = []
  ∧ ([(⟨"FR", [Cell.na]⟩ : DataRow)].length *
      [(⟨"Forecast at LDC", "Loc1"⟩ : ColLabel)].length) = 1 :=
  ⟨by decide, by decide⟩

/-- Claim C4 (amended): the reshape emits exactly one record per
(Market-row, data-column) pair whose cell is present — blank (NaN) cells
are dropped during the stack — so the record count is the number of
present cells; when no cell of the region is blank it is exactly
R times C.  Zero-valued cells are kept at this stage. -/
theorem claim4_amended (labels : List ColLabel) (rows : List DataRow)
    (hrect : ∀ r ∈ rows, r.cells.length = labels.length) :
    (reshape labels rows).length =
      (rows.map (fun r => r.cells.countP nonNA)).sum
  ∧ ((∀ r ∈ rows, ∀ c ∈ r.cells, c ≠ Cell.na) →
      (reshape labels rows).length = rows.length * labels.length) := by
  have hlen : (reshape labels rows).length =
      (rows.map (fun r => r.cells.countP nonNA)).sum := by
    induction rows with
    | nil => simp [reshape]
    | cons r rs ih =>
      have ihh := ih (fun x hx => hrect x (by simp [hx]))
      simp only [reshape] at ihh ⊢
      simp only [List.flatMap_cons, List.length_append, List.map_cons, List.sum_cons]
      rw [stackRow_length r.market labels r.cells (hrect r (by simp)), ihh]
  refine ⟨hlen, ?_⟩
  intro hfull
  rw [hlen]
  have hc : rows.map (fun r => r.cells.countP nonNA) =
      rows.map (fun _ => labels.length) := by
    apply List.map_congr_left
    intro r hr
    have : r.cells.countP nonNA = r.cells.length := by
      rw [List.countP_eq_length]
      intro cel hcel
      cases cel with
      | na => exact absurd rfl (hfull r hr Cell.na hcel)
      | s str => rfl
      | n q => rfl
    rw [this, hrect r hr]
  rw [hc, sum_map_constD]

/-- Claim C4 witness: a 2-by-2 region with one blank cell reshapes to 3
records. -/
theorem claim4_witness :
    (reshape [⟨"F1", "L1"⟩, ⟨"F2", "L2"⟩]
       [⟨"M1", [Cell.n 0, Cell.s "x"]⟩, ⟨"M2", [Cell.n 5, Cell.na]⟩]).length = 3 := by
  rw [(claim4_amended [⟨"F1", "L1"⟩, ⟨"F2", "L2"⟩]
        [⟨"M1", [Cell.n 0, Cell.s "x"]⟩, ⟨"M2", [Cell.n 5, Cell.na]⟩] (by decide)).1]
  decide

/-! ## Claim C5 — header resolution -/

/-- Claim C5 counterexample: a grid whose first forecast-keyword row is
at index 0, for which the claim demands a data start row of 2; the code
always starts data at row 10 (8 skipped plus 2 header rows), and on this
too-short grid it fails with the generic processing error, not a
HeaderNotFoundError. -/
theorem claim5_counterexample :
    firstKeywordRow gSmall = some 0
  ∧ dataStartRow gSmall ≠ 0 + 2
  ∧ load_pivot gSmall = Except.error "Error processing data" :=
  ⟨by decide, by decide, rfl⟩

/-- Claim C5 (amended): header resolution performs no scan — the read
unconditionally skips 8 rows and takes the next two rows as headers, so
data always begins at raw row 10 whatever the grid's contents; a grid
too short for this layout surfaces the generic "Error processing data"
report of the surrounding exception handler. -/
theorem claim5_amended (grid : List (List Cell)) :
    (∀ h0 h1 rest, grid.drop skiprows = h0 :: h1 :: rest →
       readPivot grid = some ⟨h0, h1, rest⟩ ∧ rest = grid.drop (dataStartRow grid))
  ∧ (grid.length < skiprows + 2 →
       load_pivot grid = Except.error "Error processing data") := by
  constructor
  · intro h0 h1 rest h
    refine ⟨by simp [readPivot, h], ?_⟩
    have hdd : grid.drop (dataStartRow grid) = (grid.drop skiprows).drop 2 := by
      rw [List.drop_drop]
      norm_num [dataStartRow, skiprows]
    rw [hdd, h]
    rfl
  · intro hlen
    have hd : (grid.drop skiprows).length < 2 := by
      simp [List.length_drop, skiprows] at hlen ⊢
      omega
    rcases hg : grid.drop skiprows with _ | ⟨a, rest2⟩
    · simp [load_pivot, readPivot, hg]
    · rcases rest2 with _ | ⟨b, t⟩
      · simp [load_pivot, readPivot, hg]
      · rw [hg] at hd
        simp at hd
        omega

/-- Claim C5 witness: the amended theorem at an 11-row grid (data region
is the rows from index 10) and at the 1-row grid (generic error). -/
theorem claim5_witness :
    readPivot g10 = some ⟨[Cell.s "H0"], [Cell.s "Market"], [[Cell.s "FR"]]⟩
  ∧ load_pivot gSmall = Except.error "Error processing data" :=
  ⟨((claim5_amended g10).1 [Cell.s "H0"] [Cell.s "Market"] [[Cell.s "FR"]] rfl).1,
   (claim5_amended gSmall).2 (by decide)⟩

/-! ## Claim C6 — geocoder fallback -/

/-- Claim C6: when the primary street + city + country query returns an
empty result and the city + country fallback returns a non-empty one,
the entry receives the fallback's first coordinates; a transport failure
of either request, or an empty fallback result, resolves the entry to
null coordinates — the per-entry geocode always returns, never fails the
run. -/
theorem claim6_geocoder_fallback (lookup : String → GeoResp)
    (street city country : String) :
    (∀ (la lo : ℚ) (rs : List (ℚ × ℚ)),
       lookup (primaryQuery street city country) = GeoResp.ok [] →
       lookup (fallbackQuery city country) = GeoResp.ok ((la, lo) :: rs) →
       geocode_one lookup street city country = (some la, some lo))
  ∧ (lookup (primaryQuery street city country) = GeoResp.fail →
       geocode_one lookup street city country = (none, none))
  ∧ (lookup (primaryQuery street city country) = GeoResp.ok [] →
       lookup (fallbackQuery city country) = GeoResp.fail →
       geocode_one lookup street city country = (none, none))
  ∧ (lookup (primaryQuery street city country) = GeoResp.ok [] →
       lookup (fallbackQuery city country) = GeoResp.ok [] →
       geocode_one lookup street city country = (none, none)) := by
  refine ⟨?_, ?_, ?_, ?_⟩ <;> intros <;> simp_all [geocode_one]

/-- Claim C6 witness: a concrete oracle with an empty primary result and
one fallback result; the entry gets the fallback coordinates. -/
theorem claim6_witness :
    geocode_one lookupFB "Street" "City" "Country" = (some 25, some 55) :=
  (claim6_geocoder_fallback lookupFB "Street" "City" "Country").1 25 55 []
    (by decide) (by decide)

/-! ## Claim C7 — geocoding cap -/

/-- Claim C7 counterexample: with a cap of 1 on a 2-row table, the claim
says the second entry is still present with null coordinates; the code
truncates the table with `head`, so the returned table has 1 row and the
second location is absent. -/
theorem claim7_counterexample :
    "BE02" ∉ (geocode_locations lookupFail (some 1) [e1, e2]).map GeoEntry.location
  ∧ (geocode_locations lookupFail (some 1) [e1, e2]).length = 1 :=
  ⟨by decide, by decide⟩

/-- Claim C7 (amended): with a positive cap n, `geocode_locations`
returns only the first n entries of the table (each geocoded); entries
beyond the cap are removed from the returned table, not kept with null
coordinates. -/
theorem claim7_amended (lookup : String → GeoResp) (cap : ℕ) (rows : List LocEntry)
    (hcap : 0 < cap) :
    geocode_locations lookup (some cap) rows = (rows.take cap).map (geocodeEntry lookup)
  ∧ (geocode_locations lookup (some cap) rows).length = min cap rows.length := by
  have ht : truthy (some cap) = true := by
    simp [truthy, bne_iff_ne]
    omega
  refine ⟨by simp [geocode_locations, applyCap, ht], ?_⟩
  simp [geocode_locations, applyCap, ht, List.length_take]

/-- Claim C7 witness: the amended theorem at cap 1 on a 2-row table with
a failing oracle. -/
theorem claim7_witness :
    geocode_locations lookupFail (some 1) [e1, e2] =
      [⟨"AE01", "S1", "C1", "K1", none, none⟩] := by
  rw [(claim7_amended lookupFail 1 [e1, e2] (by decide)).1]
  decide

/-! ## Claim C8 — aggregation -/

/-- Claim C8: the aggregation's keys are exactly the distinct (Market,
Wh_Role, Location) triples of the input, each occurring once; each
output row's Volume is the sum of the Volumes of the records collapsing
to its triple; in particular two records with distinct ForecastLabels
but the same triple collapse into one summed row. -/
theorem claim8_groupby (rows : List ClassRec) :
    ((aggregate rows).map aggKey).Nodup
  ∧ (∀ k, k ∈ (aggregate rows).map aggKey ↔ k ∈ rows.map recKey)
  ∧ (∀ a ∈ aggregate rows,
       a.volume = ((rows.filter (fun r => recKey r = aggKey a)).map
         (fun r => r.volume)).sum)
  ∧ (∀ (m role loc ft1 ft2 : String) (v1 v2 : ℚ),
       aggregate [⟨m, ft1, loc, v1, role⟩, ⟨m, ft2, loc, v2, role⟩] =
         [⟨m, role, loc, v1 + v2⟩]) := by
  refine ⟨?_, ?_, ?_, ?_⟩
  · rw [aggregate_map_key]
    exact List.nodup_dedup _
  · intro k
    rw [aggregate_map_key, List.mem_dedup]
  · intro a ha
    rw [aggregate] at ha
    obtain ⟨k, hk, rfl⟩ := List.mem_map.mp ha
    rfl
  · intro m role loc ft1 ft2 v1 v2
    have hded : ([(⟨m, ft1, loc, v1, role⟩ : ClassRec),
        ⟨m, ft2, loc, v2, role⟩].map recKey).dedup = [(m, role, loc)] := by
      simp [recKey, List.dedup_cons_of_mem]
    rw [aggregate, hded]
    simp [recKey, aggKey, List.filter_cons]

/-- Claim C8 witness: two records with distinct LDC-variant labels and
the same (Market, Wh_Role, Location) triple collapse to one row summing
100 and 50. -/
theorem claim8_witness :
    aggregate
      [⟨"FR", "Forecast at LDC", "Loc1", 100, "LDCs"⟩,
       ⟨"FR", "Forecast at LDC (area split)", "Loc1", 50, "LDCs"⟩] =
      [⟨"FR", "LDCs", "Loc1", 150⟩] := by
  rw [(claim8_groupby []).2.2.2 "FR" "LDCs" "Loc1" "Forecast at LDC"
      "Forecast at LDC (area split)" 100 50]
  norm_num

/-! ## Claim C9 — forward fill -/

/-- Claim C9: the resolved level-0 label sequence gives every blank
(placeholder) position the most recent non-blank label to its left in
the same row; in particular the row with labels Forecast A, three
blanks split around Forecast B resolves to the claimed sequence. -/
theorem claim9_forward_fill :
    (∀ l : List String, level0_fix l = spec_resolve l)
  ∧ level0_fix
      ["Forecast A", "Unnamed: 1_level_0", "Unnamed: 2_level_0",
       "Forecast B", "Unnamed: 4_level_0"] =
      [some "Forecast A", some "Forecast A", some "Forecast A",
       some "Forecast B", some "Forecast B"] := by
  constructor
  · intro l
    rw [level0_fix, ffill_resolve, spec_resolve]
    apply List.map_congr_left
    intro i _
    rw [lastD_none]
  · decide

/-! ## Claim C10 — falsy cap disables truncation -/

/-- Claim C10: a cap of None or 0 is falsy in the `if max_locations:`
guard, so the table is not truncated and every row of the input is
geocoded. -/
theorem claim10_cap_disabled :
    (∀ (lookup : String → GeoResp) (rows : List LocEntry),
       geocode_locations lookup none rows = rows.map (geocodeEntry lookup))
  ∧ ∀ (lookup : String → GeoResp) (rows : List LocEntry),
       geocode_locations lookup (some 0) rows = rows.map (geocodeEntry lookup) := by
  constructor <;> intro lookup rows <;> simp [geocode_locations, applyCap, truthy]

end FD2W
